import Mathlib

/-!
Verification development for the `argz` argument-parsing library
(`argz.py`).  The embedding covers the per-argument value pipeline
(`Arg.parse` = split, validate, adapt, range-check) and the token-binding
loop of `Route.__call__` (positional / named / switch / vararg / kwarg
resolution, leftover filling from fallback or default, final assembly).
Line numbers in comments refer to `argz.py`.
-/

namespace Argz

/-- Python runtime values as far as the argz core manipulates them:
strings (tokens), ints, bools, lists, string-keyed dicts, and `None`. -/
inductive Val where
  | vstr (s : String)
  | vint (n : Int)
  | vbool (b : Bool)
  | vlist (l : List Val)
  | vdict (l : List (String × Val))
  | vnone

/-- Python truthiness `bool(v)`. -/
def Val.truthy : Val → Bool
  | .vstr s => s != ""
  | .vint n => n != 0
  | .vbool b => b
  | .vlist l => !l.isEmpty
  | .vdict l => !l.isEmpty
  | .vnone => false

/-- Numeric view of a value: Python `bool` is an `int` subclass, so booleans
take part in numeric comparisons as `0` / `1`. -/
def Val.asNum : Val → Option Int
  | .vint n => some n
  | .vbool b => some (if b then 1 else 0)
  | _ => none

/-- Python `a < b` restricted to the shapes the core ever compares
(numbers and strings); any other pair raises `TypeError` in Python 3,
modelled as `none`. -/
def pyLt (a b : Val) : Option Bool :=
  match a.asNum, b.asNum with
  | some x, some y => some (decide (x < y))
  | _, _ =>
    match a, b with
    | .vstr x, .vstr y => some (decide (x < y))
    | _, _ => none

/-- Failure outcomes of a parse or bind run.  Each constructor corresponds
to one `raise` site in `argz.py`; `pyError` stands for a non-`ArgzError`
Python exception escaping (AssertionError, TypeError, NameError,
IndexError). -/
inductive ArgzErr where
  /-- line 756: a token that is only dashes, so the stripped name is empty. -/
  | dashOnlyToken
  /-- line 762: named token whose name is not declared and no kwarg support. -/
  | unsupportedName (argn : String)
  /-- line 795: single-dash switch syntax used for a kwarg-bound name. -/
  | kwargSwitch (p : String)
  /-- line 803: no value token left for a kwarg name. -/
  | kwargMissingValue (p : String)
  /-- line 648: the same kwarg name supplied twice. -/
  | kwargDuplicate (name argv : String)
  /-- line 813: a declared parameter bound twice. -/
  | alreadySet (argn : String)
  /-- line 819: single-dash syntax used on a parameter that is not a switch. -/
  | notASwitch (argn p : String)
  /-- line 830: no value token left for a named argument. -/
  | missingValue (p : String)
  /-- line 768: positional token with no unbound parameter and no varargs. -/
  | noVarargSupport (argv : String)
  /-- line 546: validator rejected (or raised on) a segment. -/
  | validationFailed (argName : String) (input : Val) (extras : String)
  /-- line 558: an adapter raised; carries the stage index and its input. -/
  | adapterFailed (argName : String) (idx : Nat) (input : Val) (extras : String)
  /-- line 573: value (or split length) below `min`. -/
  | belowMin (argName : String) (mn v : Val)
  /-- line 575: value (or split length) above `max`. -/
  | aboveMax (argName : String) (mx v : Val)
  /-- line 847: a required parameter left unbound after the stream drained. -/
  | requiredMissing (argName : String)
  /-- line 878: a collected kwarg name shadows a resolved parameter name. -/
  | shadowKwargs
  /-- Escaping non-ArgzError Python exception, with its class name. -/
  | pyError (msg : String)

/-- Python exception class raised for each failure, as in `argz.py`. -/
inductive ExcClass where
  | argumentRejected
  | argumentMissing
  | argzError
  | otherPy

/-- Which Python exception class each failure is raised as. -/
def ArgzErr.excClass : ArgzErr → ExcClass
  | .dashOnlyToken | .unsupportedName _ | .kwargSwitch _ | .kwargDuplicate _ _
  | .alreadySet _ | .notASwitch _ _ | .noVarargSupport _
  | .validationFailed _ _ _ | .adapterFailed _ _ _ _
  | .belowMin _ _ _ | .aboveMax _ _ _ => .argumentRejected
  | .kwargMissingValue _ | .missingValue _ | .requiredMissing _ => .argumentMissing
  | .shadowKwargs => .argzError
  | .pyError _ => .otherPy

/-- One formal parameter (`class Arg`, lines 395-592, plus the `Switcharg`
subclass).  `validator` is the single callable produced by `_get_validator`
(a regex `.match`, a user callable, or a membership test all normalise to
one function that returns a result or raises with a `.message` string);
`adapter` is the normalised chain from `_get_adapters`.  `isswitch` marks
the `Switcharg` subclass.  `required` follows the property setters: it
becomes `false` exactly when `default` or `fallback` is assigned; the
stored `_default` starts as Python `None`. -/
structure Arg where
  name : String
  required : Bool := true
  isswitch : Bool := false
  validator : Option (Val → Except String Bool) := none
  adapter : List (Val → Except String Val) := []
  split : Option String := none
  min : Option Val := none
  max : Option Val := none
  fallback : Option String := none
  default : Val := .vnone

/-- Arg._check_min_max (lines 565-577).  The leading `if self.max:` and
`if self.min:` truthiness tests in the source only emit debug log lines;
the enforced checks use `is not None`, so a bound set to `0` is still
enforced.  A comparison between incomparable shapes raises `TypeError`. -/
def Arg.checkMinMax (a : Arg) (v : Val) : Except ArgzErr Unit :=
  let minCheck : Except ArgzErr Unit :=
    match a.min with
    | none => .ok ()
    | some m =>
      match pyLt v m with
      | none => .error (.pyError "TypeError")
      | some true => .error (.belowMin a.name m v)
      | some false => .ok ()
  match minCheck with
  | .error e => .error e
  | .ok _ =>
    match a.max with
    | none => .ok ()
    | some m =>
      match pyLt m v with
      | none => .error (.pyError "TypeError")
      | some true => .error (.aboveMax a.name m v)
      | some false => .ok ()

/-- The adapter-chain loop inside `_try_parsing` (lines 550-553):
`for i, a in enumerate(adapters): p = a(p)`.  An exception aborts the
chain carrying the stage index, the stage input and the message. -/
def runAdapters : Nat → List (Val → Except String Val) → Val → Except (Nat × Val × String) Val
  | _, [], p => .ok p
  | i, a :: rest, p =>
    match a p with
    | .error msg => .error (i, p, msg)
    | .ok p2 => runAdapters (i + 1) rest p2

/-- Arg._try_parsing (lines 527-563): per-segment validation, then the
adapter chain.  `lastR` models the Python local `r`, which survives
between loop iterations: when a validator raises with an empty (falsy)
`.message`, the source falls through to `if fail or not r` and reads the
previous iteration's `r` — a NameError on the first iteration. -/
def Arg.tryParsingLoop (a : Arg) : Option Bool → List Val → Except ArgzErr (List Val)
  | _, [] => .ok []
  | lastR, p :: rest =>
    let valStep : Except ArgzErr (Option Bool) :=
      match a.validator with
      | none => .ok lastR
      | some val =>
        match val p with
        | .ok r => if r then .ok (some r) else .error (.validationFailed a.name p "")
        | .error msg =>
          if msg != "" then .error (.validationFailed a.name p msg)
          else
            match lastR with
            | none => .error (.pyError "NameError")
            | some r => if r then .ok (some r) else .error (.validationFailed a.name p "")
    match valStep with
    | .error e => .error e
    | .ok lastR2 =>
      match runAdapters 0 a.adapter p with
      | .error ev => .error (.adapterFailed a.name ev.1 ev.2.1 ev.2.2)
      | .ok q =>
        match a.tryParsingLoop lastR2 rest with
        | .error e => .error e
        | .ok qs => .ok (q :: qs)

/-- Entry point of `_try_parsing`: the loop starts with `r` unbound. -/
def Arg.tryParsing (a : Arg) (parts : List Val) : Except ArgzErr (List Val) :=
  a.tryParsingLoop none parts

/-- Does the character list start with the given pattern? -/
def stripStart : List Char → List Char → Option (List Char)
  | l, [] => some l
  | [], _ :: _ => none
  | a :: as, b :: bs => if a == b then stripStart as bs else none

/-- Worker for `pySplit`; fuel is at least the input length, and every
step consumes one fuel and at least one character. -/
def pySplitAux (sep : List Char) : Nat → List Char → List Char → List (List Char)
  | _, [], acc => [acc.reverse]
  | 0, l, acc => [acc.reverse ++ l]
  | fuel + 1, c :: rest, acc =>
    match stripStart (c :: rest) sep with
    | some rem => acc.reverse :: pySplitAux sep fuel rem []
    | none => pySplitAux sep fuel rest (c :: acc)

/-- Python `s.split(sep)` for a non-empty separator: leftmost,
non-overlapping matches; empty segments are kept and `"".split(sep)`
is `[""]`. -/
def pySplit (s sep : String) : List String :=
  (pySplitAux sep.data s.data.length s.data []).map fun l => ⟨l⟩

/-- Is `self.split` truthy (line 582)?  An empty split string is falsy in
Python and therefore behaves like `None`. -/
def Arg.splitActive (a : Arg) : Bool :=
  match a.split with
  | some s => s != ""
  | none => false

/-- Arg.parse (lines 579-592): segment if `split` is truthy, check the
segment count against `min`/`max`, run validation and adaptation per
segment; without `split`, unwrap the single result and range-check the
value itself. -/
def Arg.parse (a : Arg) (argv : String) : Except ArgzErr Val :=
  let parts : List Val :=
    match a.split with
    | some s => if s != "" then (pySplit argv s).map .vstr else [.vstr argv]
    | none => [.vstr argv]
  let lenCheck : Except ArgzErr Unit :=
    if a.splitActive then a.checkMinMax (.vint parts.length) else .ok ()
  match lenCheck with
  | .error e => .error e
  | .ok _ =>
    match a.tryParsing parts with
    | .error e => .error e
    | .ok vs =>
      if a.splitActive then .ok (.vlist vs)
      else
        match vs with
        | v :: _ =>
          match a.checkMinMax v with
          | .error e => .error e
          | .ok _ => .ok v
        | [] => .error (.pyError "IndexError")

/-- A registered route: the ordered parameter table (`self.__args`, an
OrderedDict in declaration order) plus the optional vararg and kwarg
collectors.  Collector configuration (validator, adapter) is an `Arg`, as
in the `Varargs` / `Kwargs` subclasses. -/
structure Route where
  args : List Arg
  varargs : Option Arg := none
  kwargs : Option Arg := none

/-- Ephemeral per-run state of `Route.__call__` (lines 734-735 and the
collector contents): the still-unbound parameters (`leftover`), the
name-to-value results (`parsed_dict`, insertion ordered), and the
collected vararg tokens / kwarg pairs. -/
structure BindState where
  leftover : List Arg
  parsedDict : List (String × Val)
  varargsCollected : List String
  kwargsCollected : List (String × String)

/-- Python dict membership `k in d` for an insertion-ordered map. -/
def dictHas (d : List (String × Val)) (k : String) : Bool :=
  d.any fun kv => kv.1 == k

/-- Python dict assignment `d[k] = v`: overwrite in place, else append. -/
def dictInsert (d : List (String × Val)) (k : String) (v : Val) : List (String × Val) :=
  if dictHas d k then d.map fun kv => if kv.1 == k then (k, v) else kv
  else d ++ [(k, v)]

/-- Python dict lookup `d.get(k)`. -/
def dictGet (d : List (String × Val)) (k : String) : Option Val :=
  (d.find? fun kv => kv.1 == k).map fun kv => kv.2

/-- Membership test `argn in self.__args` on the parameter table. -/
def Route.hasArg (r : Route) (n : String) : Bool :=
  r.args.any fun a => a.name == n

/-- Lookup `self.__args[argn]`. -/
def Route.findArg (r : Route) (n : String) : Option Arg :=
  r.args.find? fun a => a.name == n

/-- `leftover.remove(t_arg)`: drop the first occurrence (parameters are
identified by their name, which is unique within a table). -/
def removeArg : List Arg → String → List Arg
  | [], _ => []
  | a :: rest, n => if a.name == n then rest else a :: removeArg rest n

/-- `t_arg not in leftover`, by name. -/
def inLeftover (l : List Arg) (n : String) : Bool :=
  l.any fun a => a.name == n

/-- Python `p.startswith('--')` for the two-dash test (line 742). -/
def startsTwoDash (p : String) : Bool :=
  match p.data with
  | '-' :: '-' :: _ => true
  | _ => false

/-- Python `p.startswith('-')` (line 745). -/
def startsOneDash (p : String) : Bool :=
  match p.data with
  | '-' :: _ => true
  | _ => false

/-- Python slice `p[n:]` on a string. -/
def strDrop (p : String) (n : Nat) : String :=
  ⟨p.data.drop n⟩

/-- Result of the fuelled token-consumption loop. -/
inductive LoopRes where
  | ok (st : BindState)
  | err (e : ArgzErr)
  | fuelOut

/-- The `while parts:` loop of `Route.__call__` (lines 736-839), with
explicit fuel.  Every iteration pops at least one token off the front of
the stream, so fuel equal to the stream length suffices (theorem
`c9_binder_terminates`); `.fuelOut` is only reachable when the fuel runs
dry with tokens remaining.

Branches, in source order: classify the token (`--name` / `-name` /
positional, lines 742-753); reject a token that is nothing but dashes
(line 755); reject an unknown name when kwargs are unsupported (line 759,
which makes the re-check at line 789 unreachable); positional tokens go
to the vararg collector when `leftover` is empty, else to the first
leftover parameter (lines 765-780); unknown names go to the kwarg
collector with the next token as value (lines 785-807); known names are
checked against `leftover` (duplicate binding, line 811), removed from
it, checked for switch/value agreement (lines 816-825), and otherwise
consume the next token as value (lines 826-831); bound values run
`Arg.parse` and are stored in `parsed_dict`, whose `assert` rejects a
name already present (lines 833-839). -/
def Route.bindLoop (r : Route) : Nat → List String → BindState → LoopRes
  | _, [], st => .ok st
  | 0, _ :: _, _ => .fuelOut
  | fuel + 1, p :: rest, st =>
    let named? : Option (String × Bool) :=
      if startsTwoDash p then some (strDrop p 2, false)
      else if startsOneDash p then some (strDrop p 1, true)
      else none
    match named? with
    | none =>
      match st.leftover with
      | [] =>
        if r.varargs.isNone then .err (.noVarargSupport p)
        else r.bindLoop fuel rest { st with varargsCollected := st.varargsCollected ++ [p] }
      | t :: ts =>
        match t.parse p with
        | .error e => .err e
        | .ok v =>
          if dictHas st.parsedDict t.name then .err (.pyError "AssertionError")
          else r.bindLoop fuel rest
            { st with leftover := ts, parsedDict := st.parsedDict ++ [(t.name, v)] }
    | some (argn, suppliedSwitch) =>
      if argn == "" then .err .dashOnlyToken
      else if !r.hasArg argn && r.kwargs.isNone then .err (.unsupportedName argn)
      else if !r.hasArg argn then
        if suppliedSwitch then .err (.kwargSwitch p)
        else
          match rest with
          | [] => .err (.kwargMissingValue p)
          | argv :: rest2 =>
            if st.kwargsCollected.any (fun kv => kv.1 == argn) then
              .err (.kwargDuplicate argn argv)
            else r.bindLoop fuel rest2
              { st with kwargsCollected := st.kwargsCollected ++ [(argn, argv)] }
      else
        match r.findArg argn with
        | none => .err (.pyError "KeyError")
        | some t =>
          if !inLeftover st.leftover argn then .err (.alreadySet argn)
          else
            let leftover2 := removeArg st.leftover argn
            if suppliedSwitch && !t.isswitch then .err (.notASwitch argn p)
            else if t.isswitch && suppliedSwitch then
              r.bindLoop fuel rest
                { st with leftover := leftover2, parsedDict := dictInsert st.parsedDict t.name (.vbool !t.default.truthy) }
            else
              match rest with
              | [] => .err (.missingValue p)
              | argv :: rest2 =>
                match t.parse argv with
                | .error e => .err e
                | .ok v =>
                  if dictHas st.parsedDict t.name then .err (.pyError "AssertionError")
                  else r.bindLoop fuel rest2
                    { st with leftover := leftover2, parsedDict := st.parsedDict ++ [(t.name, v)] }

/-- The leftover-filling loop (lines 841-858): a required parameter fails;
a set fallback runs the full pipeline (`Arg.parse`); otherwise the stored
default value is used verbatim. -/
def fillLeftovers : List Arg → List (String × Val) → Except ArgzErr (List (String × Val))
  | [], pd => .ok pd
  | a :: rest, pd =>
    if a.required then .error (.requiredMissing a.name)
    else
      match a.fallback with
      | some fb =>
        match a.parse fb with
        | .error e => .error e
        | .ok v => fillLeftovers rest (dictInsert pd a.name v)
      | none => fillLeftovers rest (dictInsert pd a.name a.default)

/-- Varargs.parse (lines 624-628): `_try_parsing([self._args])[0]`, then
an `assert` that a list came back. -/
def varargsParse (va : Arg) (collected : List String) : Except ArgzErr (List Val) :=
  match va.tryParsing [.vlist (collected.map .vstr)] with
  | .error e => .error e
  | .ok (v :: _) =>
    match v with
    | .vlist l => .ok l
    | _ => .error (.pyError "AssertionError")
  | .ok [] => .error (.pyError "IndexError")

/-- Kwargs.parse (lines 655-659): `_try_parsing([self._kwargs])[0]`, then
an `assert` that a dict came back. -/
def kwargsParse (kw : Arg) (collected : List (String × String)) : Except ArgzErr (List (String × Val)) :=
  match kw.tryParsing [.vdict (collected.map fun kv => (kv.1, .vstr kv.2))] with
  | .error e => .error e
  | .ok (v :: _) =>
    match v with
    | .vdict l => .ok l
    | _ => .error (.pyError "AssertionError")
  | .ok [] => .error (.pyError "IndexError")

/-- Route.__call__ (lines 731-885): run the token loop with fuel equal to
the stream length (sufficient, see `c9_binder_terminates`), fill the
leftovers from fallback or default, then assemble the outputs.  The
source projects `parsed_dict` back into declaration order by building an
index-keyed dict via `names.index(argn)` and walking its sorted keys
(lines 860-866); since every key of `parsed_dict` is a declared name and
declared names are unique, that equals walking the declaration order and
picking the present entries, as done here.  Collected varargs are bulk
parsed and appended (lines 868-871); collected kwargs are checked against
the resolved names and bulk parsed (lines 873-883). -/
def Route.call (r : Route) (parts : List String) : Except ArgzErr (List Val × List (String × Val)) :=
  let st0 : BindState := ⟨r.args, [], [], []⟩
  match r.bindLoop parts.length parts st0 with
  | .fuelOut => .error (.pyError "FuelExhausted")
  | .err e => .error e
  | .ok st =>
    match fillLeftovers st.leftover st.parsedDict with
    | .error e => .error e
    | .ok pd =>
      let arglist := r.args.filterMap fun a => dictGet pd a.name
      let withVarargs : Except ArgzErr (List Val) :=
        match r.varargs with
        | some va =>
          if st.varargsCollected.isEmpty then .ok arglist
          else
            match varargsParse va st.varargsCollected with
            | .error e => .error e
            | .ok extra => .ok (arglist ++ extra)
        | none => .ok arglist
      match withVarargs with
      | .error e => .error e
      | .ok arglist2 =>
        match r.kwargs with
        | some kw =>
          if st.kwargsCollected.isEmpty then .ok (arglist2, [])
          else if st.kwargsCollected.any (fun kv => dictHas pd kv.1) then
            .error .shadowKwargs
          else
            match kwargsParse kw st.kwargsCollected with
            | .error e => .error e
            | .ok km => .ok (arglist2, km)
        | none => .ok (arglist2, [])

/-- The Python `int` builtin used as an adapter: parses an optionally
signed decimal string, passes ints through, converts bools. -/
def digitsToNat : List Char → Option Nat
  | [] => none
  | l => l.foldl (fun acc c =>
      match acc with
      | none => none
      | some n => if '0' ≤ c && c ≤ '9' then some (n * 10 + (c.toNat - '0'.toNat)) else none)
      (some 0)

/-- Python `int(v)` on the shapes exercised here. -/
def pyIntAdapter : Val → Except String Val
  | .vstr s =>
    match s.data with
    | '-' :: rest =>
      match digitsToNat rest with
      | some n => .ok (.vint (-(n : Int)))
      | none => .error "invalid literal for int"
    | l =>
      match digitsToNat l with
      | some n => .ok (.vint (n : Int))
      | none => .error "invalid literal for int"
  | .vint n => .ok (.vint n)
  | .vbool b => .ok (.vint (if b then 1 else 0))
  | _ => .error "int does not accept this type"

/-- Python `bool(v)` used as an adapter (the inferred adapter for switch
parameters): plain truthiness. -/
def pyBoolAdapter (v : Val) : Except String Val :=
  .ok (.vbool v.truthy)

/-! ### Concrete fixtures used by the theorems below -/

/-- The parameter that `Route.__init__` infers for a formal argument
`dbg=False`: a `Switcharg` with default `False` and the `bool` adapter
(lines 710-721). -/
def c1arg : Arg :=
  { name := "dbg", required := false, isswitch := true, adapter := [pyBoolAdapter],
    default := .vbool false }

/-- A route whose single parameter is the switch `dbg`. -/
def c1route : Route := { args := [c1arg] }

/-- A plain parameter carrying only an adapter chain. -/
def plainArg (ad : List (Val → Except String Val)) : Arg :=
  { name := "x", adapter := ad }

/-- A split parameter (`split=','`, `min=2`) with an arbitrary validator
and adapter chain. -/
def c6SplitArg (vld : Option (Val → Except String Bool)) (ad : List (Val → Except String Val)) : Arg :=
  { name := "count", validator := vld, adapter := ad, split := some ",", min := some (.vint 2) }

/-- The `test_adapter_on_split` configuration: `split=','`, `min=2`,
`adapter=[int]`. -/
def c6arg : Arg := c6SplitArg none [pyIntAdapter]

/-- An optional parameter with both a default (`99`) and a fallback
(`"5"`), adapted by `int`. -/
def fbArg : Arg :=
  { name := "n", required := false, default := .vint 99, fallback := some "5",
    adapter := [pyIntAdapter] }

/-- An optional parameter whose fallback string cannot pass its own
adapter chain (`int("abc")` raises). -/
def badFbArg : Arg :=
  { name := "n", required := false, fallback := some "abc", adapter := [pyIntAdapter] }

/-- A single required parameter. -/
def reqArg : Arg := { name := "x" }

/-- Two required plain parameters, for the duplicate-binding scenario. -/
def dupRoute : Route := { args := [{ name := "a" }, { name := "b" }] }

def argA : Arg := { name := "a" }
def argB : Arg := { name := "b" }
def argC : Arg := { name := "c", required := false, default := .vstr "cdef" }

/-- Three parameters in declaration order `a`, `b`, `c` (the last one
optional), for the positional/named interleaving scenario. -/
def abcRoute : Route := { args := [argA, argB, argC] }

/-! ### Helper lemmas -/

/-- Left-to-right composition of an adapter chain, written exactly as the
specification describes the round-trip (`fn(...f1(s))`).  This is the
spec-side definition that theorem `c5_adapter_chain_roundtrip` compares
with the pipeline from the source. -/
def specChain : List (Val → Except String Val) → Val → Except String Val
  | [], v => .ok v
  | f :: fs, v =>
    match f v with
    | .error e => .error e
    | .ok w => specChain fs w

theorem runAdapters_of_specChain (fs : List (Val → Except String Val)) :
    ∀ (i : Nat) (p v : Val), specChain fs p = .ok v → runAdapters i fs p = .ok v := by
  induction fs with
  | nil =>
    intro i p v h
    simp only [specChain] at h
    simpa [runAdapters] using h
  | cons f fs ih =>
    intro i p v h
    simp only [specChain] at h
    cases hf : f p with
    | error e => rw [hf] at h; cases h
    | ok w =>
      rw [hf] at h
      simpa [runAdapters, hf] using ih (i + 1) w v h

theorem startsOneDash_of_two {p : String} (h : startsTwoDash p = true) :
    startsOneDash p = true := by
  unfold startsTwoDash at h
  unfold startsOneDash
  cases hd : p.data with
  | nil => rw [hd] at h; cases h
  | cons c cs =>
    rw [hd] at h
    cases c
    cases cs <;> first | rfl | (revert h; split <;> simp_all)

/-! ### C1 — switch resolution -/

/-- C1 counterexample: the claim says that supplying the double-dash
named form `--name value` for a switch fails with a SwitchMismatch
error.  In the source (lines 816-831) `supplied_switch` is false for a
`--`-prefixed token, so no mismatch is raised: the next token is popped
and run through the value pipeline, and the run succeeds. -/
theorem c1_counterexample :
    c1route.call ["--dbg", "x"] = .ok ([.vbool true], []) := rfl

/-- C1 amended: for a switch parameter with default `false` (the
configuration `Route.__init__` infers, `c1arg`), supplying `-dbg` binds
it to `true`; supplying no token binds it to `false` (the default,
verbatim); and supplying `--dbg value` is not rejected — the value token
is popped and run through the pipeline, whose `bool` adapter yields the
truthiness of the value string. -/
theorem c1_switch_resolution :
    ∀ (v : String),
      c1route.call ["-dbg"] = .ok ([.vbool true], [])
      ∧ c1route.call [] = .ok ([.vbool false], [])
      ∧ c1route.call ["--dbg", v] = .ok ([.vbool (v != "")], []) :=
  fun _ => ⟨rfl, rfl, rfl⟩

/-! ### C4 — fallback precedence over default -/

/-- C4: an unbound optional parameter with a fallback resolves by running
the full value pipeline (`Arg.parse`) on the fallback string — the stored
default value is not consulted; with no fallback the stored default is
used verbatim, with no pipeline.  The concrete conjunct shows a parameter
with default `99` and fallback `"5"` resolving to `5` through the `int`
adapter. -/
theorem c4_fallback_precedence :
    (∀ (a : Arg) (rest : List Arg) (pd : List (String × Val)) (fb : String),
      a.required = false → a.fallback = some fb →
      fillLeftovers (a :: rest) pd
        = match a.parse fb with
          | .error e => .error e
          | .ok v => fillLeftovers rest (dictInsert pd a.name v))
    ∧ (∀ (a : Arg) (rest : List Arg) (pd : List (String × Val)),
      a.required = false → a.fallback = none →
      fillLeftovers (a :: rest) pd = fillLeftovers rest (dictInsert pd a.name a.default))
    ∧ Route.call { args := [fbArg] } [] = .ok ([.vint 5], []) := by
  refine ⟨?_, ?_, rfl⟩
  · intro a rest pd fb h1 h2
    simp [fillLeftovers, h1, h2]
  · intro a rest pd h1 h2
    simp [fillLeftovers, h1, h2]

/-- Witness for C4: the first conjunct applied to the concrete parameter
`fbArg` with its fallback string `"5"`. -/
theorem c4_witness :
    fillLeftovers [fbArg] []
      = match fbArg.parse "5" with
        | .error e => .error e
        | .ok v => fillLeftovers [] (dictInsert [] fbArg.name v) :=
  c4_fallback_precedence.1 fbArg [] [] "5" rfl rfl

/-! ### C5 — adapter chain round-trip -/

/-- C5: for a plain parameter with an adapter chain and no validator and
no split, the value pipeline returns the left-to-right composition of the
chain applied to the input string (`specChain`, the spec's
`fn(...f1(s))`). -/
theorem c5_adapter_chain_roundtrip :
    ∀ (ad : List (Val → Except String Val)) (s : String) (v : Val),
      specChain ad (.vstr s) = .ok v → (plainArg ad).parse s = .ok v := by
  intro ad s v h
  have hr := runAdapters_of_specChain ad 0 (.vstr s) v h
  simp [Arg.parse, plainArg, Arg.splitActive, Arg.tryParsing, Arg.tryParsingLoop, hr,
    Arg.checkMinMax]

/-- Witness for C5: the chain `[int]` on input `"42"`. -/
theorem c5_witness : (plainArg [pyIntAdapter]).parse "42" = .ok (.vint 42) :=
  c5_adapter_chain_roundtrip [pyIntAdapter] "42" (.vint 42) rfl

/-! ### C6 — split length check precedes per-item work -/

/-- C6: for every parameter with a (truthy) split delimiter, the pipeline
first segments the raw string and checks the segment count against the
optional `min`/`max` bounds (`Arg.checkMinMax` on the length); any
violation is the outcome of the whole pipeline, before any per-segment
validation or adaptation runs — the first conjunct holds for every
parameter configuration, so in particular for every validator and adapter
chain.  Concretely, with `min=2` and split on `','`, input `"3,2,1"`
passes the length check (and the whole pipeline, under the `int`
adapter), while input `"3"` fails with the range error. -/
theorem c6_split_length_check :
    (∀ (a : Arg) (sep argv : String) (e : ArgzErr),
      a.split = some sep → sep ≠ "" →
      a.checkMinMax (.vint (pySplit argv sep).length) = .error e →
      a.parse argv = .error e)
    ∧ c6arg.parse "3,2,1" = .ok (.vlist [.vint 3, .vint 2, .vint 1])
    ∧ c6arg.parse "3" = .error (.belowMin "count" (.vint 2) (.vint 1)) := by
  refine ⟨?_, rfl, rfl⟩
  intro a sep argv e h1 h2 h3
  have h2b : (sep != "") = true := by simpa using h2
  simp [Arg.parse, Arg.splitActive, h1, h2b, List.length_map, h3]

/-- Witness for C6: the split parameter with `min=2` and no adapters on
the single-segment input `"3"`. -/
theorem c6_witness :
    (c6SplitArg none []).parse "3" = .error (.belowMin "count" (.vint 2) (.vint 1)) :=
  c6_split_length_check.1 (c6SplitArg none []) "," "3" (.belowMin "count" (.vint 2) (.vint 1))
    rfl (by decide) rfl

/-! ### C7 — zero-valued bounds are enforced, not skipped -/

/-- C7 counterexample: the claim says a bound set to `0` is treated as
absent (truthiness test) and skipped.  In `_check_min_max` the truthiness
tests only gate debug logging; the enforced comparisons use `is not
None`, so `max=0` rejects the value `1` (while an unset bound accepts
it), and `min=0` rejects the value `-1`. -/
theorem c7_counterexample :
    Arg.checkMinMax { name := "count", max := some (.vint 0) } (.vint 1)
        = .error (.aboveMax "count" (.vint 0) (.vint 1))
    ∧ Arg.checkMinMax { name := "count" } (.vint 1) = .ok ()
    ∧ Arg.checkMinMax { name := "count", min := some (.vint 0) } (.vint (-1))
        = .error (.belowMin "count" (.vint 0) (.vint (-1))) :=
  ⟨rfl, rfl, rfl⟩

/-- C7 amended: bound presence in `_check_min_max` is tested with
`is not None`, so an integer bound is enforced for every value of the
bound, including `0`: with only `min` set the check rejects exactly the
values below it, and with only `max` set exactly the values above it. -/
theorem c7_zero_bound_enforced :
    ∀ (a : Arg) (v : Int),
      (∀ m : Int, a.min = some (.vint m) → a.max = none →
        a.checkMinMax (.vint v)
          = if v < m then .error (.belowMin a.name (.vint m) (.vint v)) else .ok ())
      ∧ (∀ m : Int, a.min = none → a.max = some (.vint m) →
        a.checkMinMax (.vint v)
          = if m < v then .error (.aboveMax a.name (.vint m) (.vint v)) else .ok ()) := by
  intro a v
  constructor
  · intro m h1 h2
    simp only [Arg.checkMinMax, h1, h2, pyLt, Val.asNum]
    by_cases hvm : v < m
    · simp [hvm]
    · simp [hvm]
  · intro m h1 h2
    simp only [Arg.checkMinMax, h1, h2, pyLt, Val.asNum]
    by_cases hvm : m < v
    · simp [hvm]
    · simp [hvm]

/-- Witness for C7: the `min = 0` bound applied to the value `-1`. -/
theorem c7_witness :
    Arg.checkMinMax { name := "count", min := some (.vint 0) } (.vint (-1))
      = if (-1 : Int) < 0 then .error (.belowMin "count" (.vint 0) (.vint (-1))) else .ok () :=
  (c7_zero_bound_enforced { name := "count", min := some (.vint 0) } (-1)).1 0 rfl rfl

/-! ### C2 — positional tokens claim the earliest unbound parameter -/

/-- C2: every token with no dash, processed while unbound parameters
remain, is bound to the head of `leftover` — the earliest still-unbound
parameter in declaration order — whatever else is in the run state, so in
particular regardless of how many later-declared parameters were already
bound by name.  The concrete conjunct interleaves named and positional
binding: with parameters `a b c`, after `--b 1` the positional `x` still
goes to `a`. -/
theorem c2_positional_earliest :
    (∀ (r : Route) (fuel : Nat) (p : String) (rest : List String) (st : BindState)
        (t : Arg) (ts : List Arg) (v : Val),
      startsOneDash p = false →
      st.leftover = t :: ts →
      t.parse p = .ok v →
      dictHas st.parsedDict t.name = false →
      r.bindLoop (fuel + 1) (p :: rest) st
        = r.bindLoop fuel rest
            { st with leftover := ts, parsedDict := st.parsedDict ++ [(t.name, v)] })
    ∧ abcRoute.call ["--b", "1", "x"] = .ok ([.vstr "x", .vstr "1", .vstr "cdef"], []) := by
  refine ⟨?_, rfl⟩
  intro r fuel p rest st t ts v h1 h2 h3 h4
  have h0 : startsTwoDash p = false := by
    cases hq : startsTwoDash p
    · rfl
    · exact absurd (startsOneDash_of_two hq) (by simp [h1])
  simp [Route.bindLoop, h0, h1, h2, h3, h4]

/-- Witness for C2: the positional token `x` arriving after `b` was
already bound by name still claims `a`, the earliest unbound parameter. -/
theorem c2_witness :
    abcRoute.bindLoop (0 + 1) ["x"] ⟨[argA, argC], [("b", .vstr "1")], [], []⟩
      = abcRoute.bindLoop 0 []
          ⟨[argC], [("b", .vstr "1"), ("a", .vstr "x")], [], []⟩ :=
  c2_positional_earliest.1 abcRoute 0 "x" [] ⟨[argA, argC], [("b", .vstr "1")], [], []⟩
    argA [argC] (.vstr "x") rfl rfl rfl rfl

/-! ### C3 — binding the empty token stream -/

theorem exists_ok_of_isOk {ε α : Type} {x : Except ε α} (h : x.isOk = true) :
    ∃ v, x = .ok v := by
  cases x with
  | error e => simp [Except.isOk, Except.toBool] at h
  | ok v => exact ⟨v, rfl⟩

/-- Success of the leftover-filling loop is equivalent to: every listed
parameter is optional and, when it has a fallback, the fallback string
passes that parameter's own value pipeline. -/
theorem fillLeftovers_isOk_iff (l : List Arg) :
    ∀ (pd : List (String × Val)),
      (fillLeftovers l pd).isOk = true
        ↔ ∀ a ∈ l, a.required = false ∧ ∀ fb, a.fallback = some fb → (a.parse fb).isOk = true := by
  induction l with
  | nil => intro pd; simp [fillLeftovers, Except.isOk, Except.toBool]
  | cons a rest ih =>
    intro pd
    by_cases hreq : a.required = true
    · simp [fillLeftovers, hreq, Except.isOk, Except.toBool]
    · have hreq2 : a.required = false := by simpa using hreq
      cases hfb : a.fallback with
      | none =>
        simp [fillLeftovers, hreq2, hfb, ih, List.forall_mem_cons]
      | some fb =>
        cases hp : a.parse fb with
        | error e =>
          simp [fillLeftovers, hreq2, hfb, hp, Except.isOk, Except.toBool,
            List.forall_mem_cons]
        | ok v =>
          rw [show fillLeftovers (a :: rest) pd = fillLeftovers rest (dictInsert pd a.name v)
            from by simp [fillLeftovers, hreq2, hfb, hp]]
          rw [ih]
          simp [hreq2, hfb, hp, Except.isOk, Except.toBool, List.forall_mem_cons]

/-- A run over the empty token stream reduces to leftover filling over
the whole table followed by assembly (the collectors are empty). -/
theorem Route.call_empty (r : Route) :
    r.call []
      = match fillLeftovers r.args [] with
        | .error e => .error e
        | .ok pd => .ok (r.args.filterMap fun a => dictGet pd a.name, []) := by
  cases hf : fillLeftovers r.args [] <;>
    cases hv : r.varargs <;> cases hk : r.kwargs <;>
      simp [Route.call, Route.bindLoop, hf, hv, hk]

/-- Filling a leftover list that reaches a required parameter, with every
earlier parameter optional and fallback-clean, reports that first
required parameter as missing. -/
theorem fillLeftovers_first_required :
    ∀ (pre : List Arg) (pd : List (String × Val)) (req : Arg) (post : List Arg),
      req.required = true →
      (∀ a ∈ pre, a.required = false ∧ ∀ fb, a.fallback = some fb → (a.parse fb).isOk = true) →
      fillLeftovers (pre ++ req :: post) pd = .error (.requiredMissing req.name) := by
  intro pre
  induction pre with
  | nil => intro pd req post hreq _; simp [fillLeftovers, hreq]
  | cons a rest ih =>
    intro pd req post hreq hpre
    obtain ⟨ha, hfb⟩ := hpre a (by simp)
    have hrest : ∀ a2 ∈ rest,
        a2.required = false ∧ ∀ fb, a2.fallback = some fb → (a2.parse fb).isOk = true :=
      fun a2 ha2 => hpre a2 (List.mem_cons_of_mem a ha2)
    cases hfb2 : a.fallback with
    | none =>
      simp only [List.cons_append, fillLeftovers, ha, hfb2]
      simp only [Bool.false_eq_true, if_false]
      exact ih _ req post hreq hrest
    | some fb =>
      obtain ⟨v, hv⟩ := exists_ok_of_isOk (hfb fb hfb2)
      simp only [List.cons_append, fillLeftovers, ha, hfb2, hv]
      simp only [Bool.false_eq_true, if_false]
      exact ih _ req post hreq hrest

/-- C3 counterexample: the claim says binding the empty stream succeeds
iff every parameter is optional.  `badFbArg` is optional (a fallback is
set), yet the run fails, because the fallback string is pushed through
the full value pipeline and its `int` adapter raises. -/
theorem c3_counterexample :
    badFbArg.required = false
    ∧ Route.call { args := [badFbArg] } []
        = .error (.adapterFailed "n" 0 (.vstr "abc") "invalid literal for int") :=
  ⟨rfl, rfl⟩

/-- C3 amended: binding the empty token stream succeeds iff every
parameter is optional AND every set fallback passes its parameter's own
value pipeline; when a required parameter exists and all parameters
declared before the first required one are optional with clean fallbacks,
the run fails with the missing-required-argument error naming that first
required parameter. -/
theorem c3_empty_stream :
    ∀ (r : Route),
      ((r.call []).isOk = true
        ↔ ∀ a ∈ r.args, a.required = false ∧ ∀ fb, a.fallback = some fb → (a.parse fb).isOk = true)
      ∧ ∀ (pre post : List Arg) (req : Arg),
          r.args = pre ++ req :: post → req.required = true →
          (∀ a ∈ pre, a.required = false ∧ ∀ fb, a.fallback = some fb → (a.parse fb).isOk = true) →
          r.call [] = .error (.requiredMissing req.name) := by
  intro r
  constructor
  · rw [Route.call_empty, ← fillLeftovers_isOk_iff r.args []]
    cases hf : fillLeftovers r.args [] <;> simp [hf, Except.isOk, Except.toBool]
  · intro pre post req hsplit hreq hpre
    rw [Route.call_empty, hsplit, fillLeftovers_first_required pre [] req post hreq hpre]

/-- Witness for C3: a single required parameter makes the empty run fail
naming it. -/
theorem c3_witness :
    Route.call { args := [reqArg] } [] = .error (.requiredMissing reqArg.name) :=
  (c3_empty_stream { args := [reqArg] }).2 [] [] reqArg rfl rfl (by simp)

/-! ### C8 — a name is bound at most once per run -/

theorem dictHas_false (pd : List (String × Val)) (k : String) :
    dictHas pd k = false ↔ k ∉ pd.map Prod.fst := by
  rw [← Bool.not_eq_true]
  simp [dictHas, List.any_eq_true, List.mem_map, beq_iff_eq]

theorem dictInsert_keys (pd : List (String × Val)) (k : String) (v : Val) :
    (dictInsert pd k v).map Prod.fst
      = if dictHas pd k then pd.map Prod.fst else pd.map Prod.fst ++ [k] := by
  unfold dictInsert
  split
  · rw [List.map_map]
    refine List.map_congr_left ?_
    intro kv _
    by_cases hb : kv.1 = k
    · simp [hb]
    · simp [hb]
  · simp

theorem nodup_dictInsert (pd : List (String × Val)) (k : String) (v : Val)
    (h : (pd.map Prod.fst).Nodup) : ((dictInsert pd k v).map Prod.fst).Nodup := by
  rw [dictInsert_keys]
  split
  · exact h
  · next hh =>
    have hk : k ∉ pd.map Prod.fst := (dictHas_false pd k).mp (by simpa using hh)
    simp [List.nodup_append, h, hk]

theorem nodup_append_key (pd : List (String × Val)) (k : String) (v : Val)
    (h : (pd.map Prod.fst).Nodup) (hk : dictHas pd k = false) :
    ((pd ++ [(k, v)]).map Prod.fst).Nodup := by
  have hk2 := (dictHas_false pd k).mp hk
  simp [List.nodup_append, h, hk2]

/-- The token loop preserves distinctness of the names in `parsed_dict`:
every store into it is guarded (line 811 for named bindings, the `assert`
at line 837 otherwise), so a successful run never rebinds a name. -/
theorem bindLoop_nodup_keys (r : Route) :
    ∀ (fuel : Nat) (parts : List String) (st st2 : BindState),
      (st.parsedDict.map Prod.fst).Nodup →
      r.bindLoop fuel parts st = .ok st2 →
      (st2.parsedDict.map Prod.fst).Nodup := by
  intro fuel
  induction fuel with
  | zero =>
    intro parts st st2 hnd h
    cases parts with
    | nil => simp only [Route.bindLoop] at h; cases h; exact hnd
    | cons p rest => simp [Route.bindLoop] at h
  | succ fuel ih =>
    intro parts st st2 hnd h
    cases parts with
    | nil => simp only [Route.bindLoop] at h; cases h; exact hnd
    | cons p rest =>
      simp only [Route.bindLoop] at h
      repeat' split at h
      all_goals
        first
          | cases h
          | (cases h; exact hnd)
          | (refine ih _ _ _ ?_ h
             first
               | exact hnd
               | exact nodup_dictInsert _ _ _ hnd
               | exact nodup_append_key _ _ _ hnd (by simp_all))

/-- Leftover filling also preserves distinctness of the stored names. -/
theorem fillLeftovers_nodup_keys :
    ∀ (l : List Arg) (pd pd2 : List (String × Val)),
      (pd.map Prod.fst).Nodup → fillLeftovers l pd = .ok pd2 →
      (pd2.map Prod.fst).Nodup := by
  intro l
  induction l with
  | nil =>
    intro pd pd2 h hf
    simp only [fillLeftovers] at hf; cases hf; exact h
  | cons a rest ih =>
    intro pd pd2 h hf
    simp only [fillLeftovers] at hf
    repeat' split at hf
    all_goals
      first
        | cases hf
        | exact ih _ _ (nodup_dictInsert _ _ _ h) hf

/-- C8: within one run each parameter name is stored in `parsed_dict` at
most once — both the token loop and leftover filling keep the stored
names distinct, so no store overwrites an earlier one — and supplying two
bindings for the same parameter (a positional token and a later `--name`
token) fails with the duplicate-binding error of line 813. -/
theorem c8_binding_unique :
    (∀ (r : Route) (fuel : Nat) (parts : List String) (st st2 : BindState),
      (st.parsedDict.map Prod.fst).Nodup →
      r.bindLoop fuel parts st = .ok st2 →
      (st2.parsedDict.map Prod.fst).Nodup)
    ∧ (∀ (l : List Arg) (pd pd2 : List (String × Val)),
      (pd.map Prod.fst).Nodup → fillLeftovers l pd = .ok pd2 →
      (pd2.map Prod.fst).Nodup)
    ∧ dupRoute.call ["v1", "--a", "v2"] = .error (.alreadySet "a") :=
  ⟨bindLoop_nodup_keys, fillLeftovers_nodup_keys, rfl⟩

/-- Witness for C8: a completed loop starting from a one-entry
`parsed_dict` keeps its names distinct. -/
theorem c8_witness :
    ((⟨[], [("a", .vstr "x")], [], []⟩ : BindState).parsedDict.map Prod.fst).Nodup :=
  c8_binding_unique.1 dupRoute 0 [] ⟨[], [("a", .vstr "x")], [], []⟩
    ⟨[], [("a", .vstr "x")], [], []⟩ (by simp) rfl

/-! ### C9 — the token loop terminates within stream-length iterations -/

/-- C9: every iteration of the token loop pops at least one token off the
front of the stream, so a fuel budget equal to the stream length is never
exhausted: with `parts.length ≤ fuel` the loop always reaches a normal
result, for every table and state.  `Route.call` runs the loop with
exactly that fuel. -/
theorem c9_binder_terminates :
    ∀ (r : Route) (fuel : Nat) (parts : List String) (st : BindState),
      parts.length ≤ fuel → r.bindLoop fuel parts st ≠ .fuelOut := by
  intro r fuel
  induction fuel with
  | zero =>
    intro parts st hlen
    have hnil : parts = [] := List.length_eq_zero.mp (Nat.le_zero.mp hlen)
    subst hnil
    simp [Route.bindLoop]
  | succ fuel ih =>
    intro parts st hlen
    cases parts with
    | nil => simp [Route.bindLoop]
    | cons p rest =>
      intro h
      simp only [Route.bindLoop] at h
      repeat' split at h
      all_goals
        first
          | cases h
          | exact ih _ _ (by simp only [List.length_cons] at hlen; omega) h

/-- Witness for C9: fuel `1` suffices for a one-token stream. -/
theorem c9_witness :
    dupRoute.bindLoop 1 ["x"] ⟨[], [], [], []⟩ ≠ .fuelOut :=
  c9_binder_terminates dupRoute 1 ["x"] ⟨[], [], [], []⟩ (by simp)

/-! ### C10 — dash-only tokens are rejected outright -/

/-- C10: a token that is nothing but dashes (`-` or `--`, leaving an
empty candidate name) makes the binder fail immediately with the
argument-rejected error of line 756, both from any intermediate loop
state and for a whole run; in particular it is never bound positionally
or by name and never reaches a vararg or kwarg collector. -/
theorem c10_dash_only_rejected :
    ∀ (r : Route) (fuel : Nat) (rest : List String) (st : BindState) (p : String),
      p = "-" ∨ p = "--" →
      r.bindLoop (fuel + 1) (p :: rest) st = .err .dashOnlyToken
      ∧ r.call (p :: rest) = .error .dashOnlyToken := by
  rintro r fuel rest st p (rfl | rfl) <;> exact ⟨rfl, rfl⟩

/-- Witness for C10: the token `"-"` as the whole stream of a two-argument
route. -/
theorem c10_witness :
    dupRoute.bindLoop (0 + 1) ["-"] ⟨[], [], [], []⟩ = .err .dashOnlyToken
    ∧ dupRoute.call ["-"] = .error .dashOnlyToken :=
  c10_dash_only_rejected dupRoute 0 [] ⟨[], [], [], []⟩ "-" (Or.inl rfl)

end Argz
